import Mathlib

/-!
Verification of the patch-synchronization core of ElaUpdater (`updater.py`,
with the GUI collaborator in `app.py`) against its specification.

The Python source is shallowly embedded: pure helpers become Lean functions,
the effectful synchronization cycle becomes an explicit state transformer
over a `St` record driven by an `Env` oracle that fixes the outcome of each
network interaction (manifest fetch, per-call timestamp probe, per-call
download and extraction outcome).  Exceptions in the source are modelled by
`Option` results or explicit failure branches; every caught-and-logged
exception corresponds to a total branch of the embedding.
-/

set_option maxRecDepth 10000

namespace ElaUpdater

/-! ## JSON values and a model of `json.loads` -/

/-- JSON values, modelling the results of Python's `json.load` /
`response.json()`. -/
inductive J where
  | null
  | jbool (b : Bool)
  | num (n : Int)
  | str (s : String)
  | arr (xs : List J)
  | obj (kvs : List (String × J))

/-- Whether a JSON value is an object (a Python `dict`). -/
def J.isObj : J → Bool
  | J.obj _ => true
  | _ => false

/-- Whether a JSON value is a string. -/
def J.isStr : J → Bool
  | J.str _ => true
  | _ => false

/-- Opening brace character, kept out of literals. -/
def lbrace : Char := Char.ofNat 123

/-- Closing brace character, kept out of literals. -/
def rbrace : Char := Char.ofNat 125

/-- Skip JSON whitespace. -/
def skipWs : List Char → List Char
  | [] => []
  | c :: rest =>
    if c = ' ' ∨ c = '\n' ∨ c = '\t' ∨ c = '\r' then skipWs rest else c :: rest

/-- Parse the remainder of a JSON string literal (opening quote already
consumed).  Escape sequences are not modelled; a backslash makes the parse
fail, which is conservative for the inputs considered here. -/
def parseStrAux : List Char → List Char → Option (String × List Char)
  | [], _ => none
  | c :: rest, acc =>
    if c = '"' then some (String.mk acc.reverse, rest)
    else if c = '\\' then none
    else parseStrAux rest (c :: acc)

/-- Accumulate a run of decimal digits. -/
def parseNatAux : List Char → Nat → Nat × List Char
  | [], acc => (acc, [])
  | c :: rest, acc =>
    if c.isDigit then parseNatAux rest (acc * 10 + (c.toNat - 48))
    else (acc, c :: rest)

mutual

/-- Fueled recursive-descent parser for a JSON value. -/
def parseVal : Nat → List Char → Option (J × List Char)
  | 0, _ => none
  | Nat.succ fuel, cs =>
    match skipWs cs with
    | [] => none
    | c :: rest =>
      if c = 'n' then
        match rest with
        | 'u' :: 'l' :: 'l' :: r => some (J.null, r)
        | _ => none
      else if c = 't' then
        match rest with
        | 'r' :: 'u' :: 'e' :: r => some (J.jbool true, r)
        | _ => none
      else if c = 'f' then
        match rest with
        | 'a' :: 'l' :: 's' :: 'e' :: r => some (J.jbool false, r)
        | _ => none
      else if c = '"' then
        match parseStrAux rest [] with
        | some (s, r) => some (J.str s, r)
        | none => none
      else if c = '[' then parseArrTail fuel (skipWs rest)
      else if c = lbrace then parseObjTail fuel (skipWs rest)
      else if c = '-' then
        match rest with
        | d :: _ =>
          if d.isDigit then
            let p := parseNatAux rest 0
            some (J.num (-(p.1 : Int)), p.2)
          else none
        | [] => none
      else if c.isDigit then
        let p := parseNatAux (c :: rest) 0
        some (J.num (p.1 : Int), p.2)
      else none

/-- Parse what follows the opening bracket of an array. -/
def parseArrTail : Nat → List Char → Option (J × List Char)
  | 0, _ => none
  | Nat.succ fuel, cs =>
    match cs with
    | ']' :: r => some (J.arr [], r)
    | _ =>
      match parseArrItems fuel cs with
      | some (xs, r) => some (J.arr xs, r)
      | none => none

/-- Parse one or more comma-separated array items and the closing bracket. -/
def parseArrItems : Nat → List Char → Option (List J × List Char)
  | 0, _ => none
  | Nat.succ fuel, cs =>
    match parseVal fuel cs with
    | none => none
    | some (x, r) =>
      match skipWs r with
      | ',' :: r2 =>
        match parseArrItems fuel r2 with
        | some (xs, r3) => some (x :: xs, r3)
        | none => none
      | ']' :: r2 => some ([x], r2)
      | _ => none

/-- Parse what follows the opening brace of an object. -/
def parseObjTail : Nat → List Char → Option (J × List Char)
  | 0, _ => none
  | Nat.succ fuel, cs =>
    match cs with
    | [] => none
    | c :: r =>
      if c = rbrace then some (J.obj [], r)
      else
        match parseObjItems fuel cs with
        | some (kvs, r2) => some (J.obj kvs, r2)
        | none => none

/-- Parse one or more comma-separated object members and the closing brace. -/
def parseObjItems : Nat → List Char → Option (List (String × J) × List Char)
  | 0, _ => none
  | Nat.succ fuel, cs =>
    match skipWs cs with
    | '"' :: r =>
      match parseStrAux r [] with
      | some (k, r2) =>
        match skipWs r2 with
        | ':' :: r3 =>
          match parseVal fuel r3 with
          | some (v, r4) =>
            match skipWs r4 with
            | ',' :: r5 =>
              match parseObjItems fuel r5 with
              | some (kvs, r6) => some ((k, v) :: kvs, r6)
              | none => none
            | c2 :: r5 => if c2 = rbrace then some ([(k, v)], r5) else none
            | [] => none
          | none => none
        | _ => none
      | none => none
    | _ => none

end

/-- Model of Python's `json.loads`: parse a complete JSON document, requiring
only trailing whitespace after the value. -/
def json_loads (s : String) : Option J :=
  match parseVal (3 * s.length + 3) s.toList with
  | some (j, r) => if skipWs r = [] then some j else none
  | none => none

/-! ## Data model: VersionMap and Manifest

Python dicts preserve insertion order, so both are embedded as ordered
association lists; `vset` has Python dict-assignment semantics (overwrite in
place if the key is present, append otherwise). -/

/-- A VersionMap: file key to last-synchronized timestamp
(`versions.json`). Timestamps are abstracted to naturals. -/
abbrev VMap := List (String × Nat)

/-- A manifest (`patches.json` after validation): file key to URL,
in iteration order. -/
abbrev Patches := List (String × String)

/-- `version_map.get(file_key, 0)`. -/
def vget (m : VMap) (k : String) : Nat :=
  match m.find? (fun p => p.1 == k) with
  | some p => p.2
  | none => 0

/-- `version_map[file_key] = v` (Python dict assignment). -/
def vset (m : VMap) (k : String) (v : Nat) : VMap :=
  if m.any (fun p => p.1 == k) then
    m.map (fun p => if p.1 == k then (k, v) else p)
  else m ++ [(k, v)]

/-- `url.split("/")` followed by taking the last segment, accumulating the
characters after the final slash. -/
def lastSegAux : List Char → List Char → List Char
  | [], cur => cur
  | c :: rest, cur =>
    if c = '/' then lastSegAux rest [] else lastSegAux rest (cur ++ [c])

/-- `url.split("/")[-1]`: the file name derived from a URL. -/
def lastSegment (url : String) : String := String.mk (lastSegAux url.toList [])

/-- Add a file to a directory listing (creating or overwriting it). -/
def addFile (fs : List String) (f : String) : List String :=
  if fs.contains f then fs else fs ++ [f]

/-- `Path.unlink(missing_ok=True)`: remove a file from a directory listing. -/
def removeFile (fs : List String) (f : String) : List String :=
  fs.filter (fun g => g ≠ f)

/-! ## The synchronization cycle as a state machine

`Env` is the oracle fixing every external outcome of one cycle: the manifest
fetch result (already through `download_patches` validation, `none` meaning
any network/parse/validation failure), the result of the n-th
`get_remote_timestamp` call, and the success of the n-th `download_file` /
`extract_7z` call.  `St` is the file-system state the cycle reads and
writes: the `versions.json` content, the cached `patches_local.json`, and
the archives present in the data (staging) directory. -/

/-- External-world oracle for one synchronization cycle. -/
structure Env where
  fetch : Option Patches
  probe : Nat → String → Option Nat
  downloadOk : Nat → String → Bool
  extractOk : Nat → Bool

/-- File-system state threaded through one cycle, with call counters for the
three effectful operations. -/
structure St where
  vfile : Option VMap
  cached : Option Patches
  staged : List String
  probeCnt : Nat
  dlCnt : Nat
  exCnt : Nat

/-- `load_version_map`: a missing `versions.json` yields an empty map (the
string-level failure modes are modelled separately by
`load_version_map_file`). -/
def load_version_map_st (st : St) : VMap := st.vfile.getD []

/-- `save_version_map`: persist the whole map (the write-failure behaviour
is modelled separately by `save_version_map_model`). -/
def save_version_map_st (m : VMap) (st : St) : St := { st with vfile := some m }

/-- `get_remote_timestamp(url)`: one probe call consuming one oracle slot;
`none` uniformly models a missing Last-Modified header, a non-200 status, or
a caught network error. -/
def get_remote_timestamp_st (env : Env) (url : String) (st : St) :
    Option Nat × St :=
  (env.probe st.probeCnt url, { st with probeCnt := st.probeCnt + 1 })

/-- One iteration of the loop in `update_version_map_from_patches`
(lines 134 to 150): probe the remote timestamp and record it in the map
whenever it differs from the stored value (default 0); a probe failure or a
caught exception leaves the entry untouched. -/
def update_step (env : Env) (acc : VMap × Bool × St) (kv : String × String) :
    VMap × Bool × St :=
  let vm := acc.1
  let updated := acc.2.1
  let r := get_remote_timestamp_st env kv.2 acc.2.2
  match r.1 with
  | none => (vm, updated, r.2)
  | some remote =>
    if remote ≠ vget vm kv.1 then (vset vm kv.1 remote, true, r.2)
    else (vm, updated, r.2)

/-- `update_version_map_from_patches(patches, version_map_file)`: load the
stored map, record every differing remote timestamp, and save the map if
anything changed. -/
def update_version_map_from_patches (env : Env) (patches : Patches) (st : St) :
    St :=
  let vm0 := load_version_map_st st
  let r := patches.foldl (update_step env) (vm0, false, st)
  if r.2.1 then save_version_map_st r.1 r.2.2 else r.2.2

/-- One iteration of the per-key loop in `check_and_update_files`
(lines 289 to 325): probe, compare strictly, and on staleness download to
the data directory, extract, commit the timestamp and persist the map.
A download failure is modelled as the request failing before the
destination file is created; an extraction failure leaves the staged
archive in place (the source has no cleanup on this path). -/
def process_patch (env : Env) (acc : VMap × St) (kv : String × String) :
    VMap × St :=
  let vm := acc.1
  let r := get_remote_timestamp_st env kv.2 acc.2
  match r.1 with
  | none => (vm, r.2)
  | some remote =>
    if remote > vget vm kv.1 then
      let fname := lastSegment kv.2
      let dOk := env.downloadOk r.2.dlCnt kv.2
      let st1 : St := { r.2 with dlCnt := r.2.dlCnt + 1 }
      if dOk then
        let st2 : St := { st1 with staged := addFile st1.staged fname }
        let eOk := env.extractOk st2.exCnt
        let st3 : St := { st2 with exCnt := st2.exCnt + 1 }
        if eOk then
          let vm2 := vset vm kv.1 remote
          (vm2, save_version_map_st vm2 st3)
        else (vm, st3)
      else (vm, st1)
    else (vm, r.2)

/-- `download_patches(patches_url)` at cycle level: a successful, validated
fetch overwrites the cached manifest; any failure returns `none` and leaves
the cache untouched. -/
def download_patches_st (env : Env) (st : St) : Option Patches × St :=
  match env.fetch with
  | some p => (some p, { st with cached := some p })
  | none => (none, st)

/-- The body of one cycle once a manifest is in hand: the pre-pass
`update_version_map_from_patches`, the reload of the version map, and the
per-key download loop. -/
def sync_cycle_body (env : Env) (patches : Patches) (st : St) : St :=
  let st1 := update_version_map_from_patches env patches st
  let vm := load_version_map_st st1
  (patches.foldl (process_patch env) (vm, st1)).2

/-- `check_and_update_files()`: fetch the manifest, fall back to the cached
copy, and run the cycle body; `false` in the result is the fatal
`sys.exit(1)` path taken when no manifest is obtainable. -/
def check_and_update_files (env : Env) (st : St) : St × Bool :=
  let r := download_patches_st env st
  match r.1 with
  | some patches => (sync_cycle_body env patches r.2, true)
  | none =>
    match r.2.cached with
    | some patches => (sync_cycle_body env patches r.2, true)
    | none => (r.2, false)

/-- The `__main__` guard of `updater.py`: a completed cycle falls through to
exit status 0; the `sys.exit(1)` raised on the no-manifest path propagates
as the process exit status. -/
def main_exit (env : Env) (st : St) : Nat :=
  if (check_and_update_files env st).2 then 0 else 1

/-! ## VersionMap persistence at file level (for the save and load claims)

File contents are lists of characters.  `save_version_map` opens the target
file itself with mode `"w"` (truncating it) and streams the `json.dump`
output into it, so a failure part-way through the dump leaves whatever
chunks were already written; the surrounding `try`/`except` only logs. -/

/-- One `"key": value` piece of the `json.dump(version_map, f, indent=4)`
output. -/
def entryChunk (p : String × Nat) : List Char :=
  ("\"" ++ p.1 ++ "\": " ++ toString p.2).toList

/-- The sequence of chunks `json.dump(version_map, f, indent=4)` writes to
the already-open file. -/
def serializeChunks (m : VMap) : List (List Char) :=
  match m with
  | [] => [[lbrace, rbrace]]
  | e :: rest =>
    ([lbrace] ++ ("\n    ").toList) :: entryChunk e ::
      (rest.map (fun p => (",\n    ").toList ++ entryChunk p) ++
        [['\n', rbrace]])

/-- The full serialized form of a VersionMap. -/
def serializeVMap (m : VMap) : List Char := (serializeChunks m).flatten

/-- `save_version_map(version_map, version_map_file)` at file level.
`openOk = false` models `open` itself failing (the old content survives);
`failAfter = some k` models an exception after `k` chunks of the dump were
written into the file that `open(..., "w")` just truncated;
`failAfter = none` is the fully successful write.  In every case the
exception is caught and printed, never raised, so the function is total. -/
def save_version_map_model (m : VMap) (openOk : Bool) (failAfter : Option Nat)
    (old : Option (List Char)) : Option (List Char) :=
  if openOk then
    match failAfter with
    | none => some (serializeVMap m)
    | some k => some ((serializeChunks m).take k).flatten
  else old

/-- The possible states of the `versions.json` backing file: missing,
present but unreadable (`open` raises), or readable with some content. -/
inductive VFileState where
  | missing
  | unreadable (s : String)
  | readable (s : String)

/-- `load_version_map(version_map_file)` at file level: a missing file
yields an empty dict before any `open`; an unreadable file or a failed
parse is caught and yields an empty dict; a successful parse is returned
verbatim. -/
def load_version_map_file : VFileState → J
  | VFileState.missing => J.obj []
  | VFileState.unreadable _ => J.obj []
  | VFileState.readable s => (json_loads s).getD (J.obj [])

/-! ## The initial-package installer (`download_and_extract_initial_package`)

Its `try`/`finally` removes the staged download on every exit path:
success, download failure, extraction failure, or a failed required-file
check.  The staging directory listing is threaded explicitly. -/

/-- `download_and_extract_initial_package(config)` with the configured URL
present (`hasUrl`), the download, extraction and required-file outcomes
fixed by the oracle booleans, a staging-directory listing, and the staged
file name derived from the URL.  Returns the success flag and the final
staging-directory listing after the `finally` cleanup. -/
def download_and_extract_initial_package (hasUrl dlOk exOk reqOk : Bool)
    (staged : List String) (fname : String) : Bool × List String :=
  if hasUrl then
    let body : Bool × List String :=
      if dlOk then
        let staged1 := addFile staged fname
        if exOk then
          if reqOk then (true, staged1) else (false, staged1)
        else (false, staged1)
      else (false, staged)
    (body.1, removeFile body.2 fname)
  else (false, staged)

/-! ## Manifest fetch validation (`download_patches`) over raw JSON -/

/-- `download_patches(patches_url)` over the raw payload: `payload = none`
is any network error, non-2xx status or JSON decode error; otherwise the
code only checks `isinstance(patches, dict) and patches` before persisting
the payload as the cached manifest and returning it.  The result pairs the
returned value with the cache content after the call. -/
def download_patches_model (payload : Option J)
    (cached : Option (List (String × J))) :
    Option (List (String × J)) × Option (List (String × J)) :=
  match payload with
  | none => (none, cached)
  | some (J.obj kvs) =>
    if kvs.isEmpty then (none, cached) else (some kvs, some kvs)
  | some _ => (none, cached)

/-! ## Configuration loading (`load_config`) -/

/-- `DEFAULT_CONFIG` from `updater.py`. -/
def DEFAULT_CONFIG : List (String × J) :=
  [("patches_url", J.str "http://uo-elantharil.de:8080/patcher/patches.json"),
   ("data_dir", J.str "./data"),
   ("unpack_dir", J.str "."),
   ("version_map_file", J.str "./versions.json"),
   ("required_file", J.null),
   ("initial_package_url", J.null),
   ("initial_package_extract_path", J.str ".")]

/-- Whether a needle occurs as a contiguous run at the head of a haystack. -/
def startsWithL : List Char → List Char → Bool
  | [], _ => true
  | _ :: _, [] => false
  | a :: as, b :: bs => a = b && startsWithL as bs

/-- Whether a needle occurs contiguously anywhere in a haystack
(Python's `in` on strings). -/
def strHas (needle : List Char) : List Char → Bool
  | [] => needle.isEmpty
  | b :: bs => startsWithL needle (b :: bs) || strHas needle bs

/-- Python's `key not in config` for an arbitrary JSON `config`: key lookup
on a dict, element membership on a list (string elements only can equal a
string key), substring test on a string; `none` models the `TypeError`
raised on non-iterable values. -/
def keyNotIn (key : String) : J → Option Bool
  | J.obj kvs => some (!(kvs.any (fun p => p.1 == key)))
  | J.arr xs =>
    some (!(xs.any (fun j =>
      match j with
      | J.str s => s == key
      | _ => false)))
  | J.str s => some (!(strHas key.toList s.toList))
  | _ => none

/-- Python's `config[key] = v` for an arbitrary JSON `config`: dict
assignment succeeds, anything else raises a `TypeError` (modelled as
`none`). -/
def setKeyJ (key : String) (v : J) : J → Option J
  | J.obj kvs =>
    some (J.obj
      (if kvs.any (fun p => p.1 == key) then
        kvs.map (fun p => if p.1 == key then (key, v) else p)
      else kvs ++ [(key, v)]))
  | _ => none

/-- The `for key, default_value in DEFAULT_CONFIG.items()` loop of
`load_config`: fill each absent key; `none` models an escaping exception
(the caller then returns the defaults). -/
def fillDefaults : List (String × J) → J → Option J
  | [], cfg => some cfg
  | (k, dv) :: rest, cfg =>
    match keyNotIn k cfg with
    | none => none
    | some true =>
      match setKeyJ k dv cfg with
      | none => none
      | some cfg2 => fillDefaults rest cfg2
    | some false => fillDefaults rest cfg

/-- The effect of the fill loop on a JSON object, as a pure list
function. -/
def fillList : List (String × J) → List (String × J) → List (String × J)
  | [], kvs => kvs
  | (k, dv) :: ds, kvs =>
    if kvs.any (fun p => p.1 == k) then fillList ds kvs
    else fillList ds (kvs ++ [(k, dv)])

/-- `load_config()` over the state of `config.json`: a missing file or one
whose parse fails yields the defaults; a parsed value is run through the
fill loop, any exception there yielding the defaults. -/
def load_config_model : VFileState → J
  | VFileState.missing => J.obj DEFAULT_CONFIG
  | VFileState.unreadable _ => J.obj DEFAULT_CONFIG
  | VFileState.readable s =>
    match json_loads s with
    | none => J.obj DEFAULT_CONFIG
    | some cfg => (fillDefaults DEFAULT_CONFIG cfg).getD (J.obj DEFAULT_CONFIG)

/-! ## Concrete scenarios used by the theorems below -/

/-- The initial file-system state: no `versions.json`, no cached manifest,
an empty data directory. -/
def st0 : St :=
  { vfile := none, cached := none, staged := [], probeCnt := 0, dlCnt := 0,
    exCnt := 0 }

/-- Scenario 1 of the specification: manifest `a -> http://x/a.7z`, every
probe reporting timestamp 1000, downloads and extractions all succeeding. -/
def scenario1Env : Env :=
  { fetch := some [("a", "http://x/a.7z")], probe := fun _ _ => some 1000,
    downloadOk := fun _ _ => true, extractOk := fun _ => true }

/-- A stored map whose entry for key `a` (2000) exceeds the remote
timestamp (1000) reported by `scenario1Env`. -/
def staleStoredSt : St := { st0 with vfile := some [("a", 2000)] }

/-- Like `scenario1Env`, but the first probe call fails and later ones
report 1000, so the pre-pass records nothing and the download loop runs. -/
def lateProbeEnv : Env :=
  { scenario1Env with probe := fun n _ => if n = 0 then none else some 1000 }

/-- Like `scenario1Env`, but every download fails. -/
def failDownloadEnv : Env :=
  { scenario1Env with downloadOk := fun _ _ => false }

/-- Like `scenario1Env`, but the live manifest fetch fails. -/
def noFetchEnv : Env := { scenario1Env with fetch := none }

/-- A state holding a cached manifest for key `c`. -/
def cachedSt : St := { st0 with cached := some [("c", "http://x/c.7z")] }

/-- A `config.json` text holding a JSON array whose elements are exactly
the default configuration keys. -/
def arrConfigText : String :=
  "[\"patches_url\",\"data_dir\",\"unpack_dir\",\"version_map_file\",\"required_file\",\"initial_package_url\",\"initial_package_extract_path\"]"

/-! ## Theorems -/

/-- C1: the claimed invariant fails on `check_and_update_files`.  With
manifest `a -> http://x/a.7z`, an empty stored map and every probe
reporting 1000, one cycle persists `versions.json = a -> 1000` while
`download_file` and `extract_7z` are invoked zero times: the pre-pass
`update_version_map_from_patches` writes the timestamp with no download or
extraction in the cycle. -/
theorem C1_timestamp_written_without_install :
    (check_and_update_files scenario1Env st0).1.vfile = some [("a", 1000)] ∧
      (check_and_update_files scenario1Env st0).1.dlCnt = 0 ∧
      (check_and_update_files scenario1Env st0).1.exCnt = 0 := by
  refine ⟨by decide, by decide, by decide⟩

/-- C2: scenario 1 of the specification, evaluated on the code.  The cycle
completes and leaves the persisted map at `a -> 1000`, but the download and
the extraction are invoked zero times, not once: the pre-pass records the
timestamp first, so the download loop sees the key as up to date. -/
theorem C2_scenario1_zero_downloads :
    (check_and_update_files scenario1Env st0).1.dlCnt = 0 ∧
      (check_and_update_files scenario1Env st0).1.exCnt = 0 ∧
      (check_and_update_files scenario1Env st0).1.vfile = some [("a", 1000)] ∧
      (check_and_update_files scenario1Env st0).2 = true ∧
      (0 : Nat) ≠ 1 := by
  refine ⟨by decide, by decide, by decide, by decide, by decide⟩

/-- C3: monotonic acceptance fails on the code.  With stored timestamp 2000
for key `a` and every probe reporting 1000, the cycle overwrites the stored
timestamp with the strictly smaller remote value 1000: the pre-pass updates
on any difference, not only on strict increase. -/
theorem C3_stored_timestamp_decreases :
    staleStoredSt.vfile = some [("a", 2000)] ∧
      (check_and_update_files scenario1Env staleStoredSt).1.vfile =
        some [("a", 1000)] ∧
      (1000 : Nat) < 2000 := by
  refine ⟨by decide, by decide, by decide⟩

/-- C4 counterexample: `save_version_map` does not have
write-new-then-replace semantics.  With the old `versions.json` holding
`a -> 1` and a write of `b -> 2` failing after zero chunks, the file is
left empty: `open(file, "w")` truncated the previous on-disk copy before
the failed dump. -/
theorem C4_counterexample_truncated_save :
    save_version_map_model [("b", 2)] true (some 0)
        (some ("\x7b\"a\": 1\x7d".toList)) = some [] ∧
      some ([] : List Char) ≠ some ("\x7b\"a\": 1\x7d".toList) := by
  refine ⟨rfl, by decide⟩

/-- C4 amended: `save_version_map` writes the target file in place.  A
successful call persists the full serialized map; a failure to open leaves
the previous content; a failure after `k` chunks of the dump leaves exactly
those chunks — a prefix of the new serialization, not the previous copy —
and in every case the exception is caught rather than raised (the model is
total). -/
theorem C4_save_writes_in_place (m : VMap) (old : Option (List Char))
    (k : Nat) :
    save_version_map_model m true none old = some (serializeVMap m) ∧
      (∀ fa, save_version_map_model m false fa old = old) ∧
      save_version_map_model m true (some k) old =
        some ((serializeChunks m).take k).flatten ∧
      ∃ t, serializeVMap m = ((serializeChunks m).take k).flatten ++ t := by
  refine ⟨rfl, fun fa => rfl, rfl,
    ⟨((serializeChunks m).drop k).flatten, ?_⟩⟩
  rw [serializeVMap, ← List.flatten_append, List.take_append_drop]

/-- A file just added to a directory listing is present in it. -/
theorem mem_addFile (l : List String) (f : String) : f ∈ addFile l f := by
  unfold addFile
  split
  · next h => exact List.mem_of_elem_eq_true h
  · simp

/-- C5 counterexample: the per-key install of the synchronization cycle
does not delete its staging file.  With the first probe failing (so the
pre-pass records nothing) and the second reporting 1000, the cycle
downloads `a.7z`, extracts it successfully and commits the timestamp, yet
`a.7z` is still present in the data directory when the cycle returns. -/
theorem C5_counterexample_staging_file_remains :
    (check_and_update_files lateProbeEnv st0).1.staged = ["a.7z"] ∧
      (check_and_update_files lateProbeEnv st0).1.dlCnt = 1 ∧
      (check_and_update_files lateProbeEnv st0).1.vfile = some [("a", 1000)] := by
  refine ⟨by decide, by decide, by decide⟩

/-- C5 amended: only `download_and_extract_initial_package` removes its
staging file on every exit path (success, download failure, extraction
failure, failed required-file check); the per-key install step of
`check_and_update_files` leaves the downloaded archive in the data
directory whenever the download succeeded, regardless of the extraction
outcome. -/
theorem C5_staging_cleanup_initial_package_only (dlOk exOk reqOk : Bool)
    (staged : List String) (fname : String) (env : Env) (vm : VMap) (st : St)
    (k url : String) (r : Nat) :
    fname ∉
        (download_and_extract_initial_package true dlOk exOk reqOk staged
          fname).2 ∧
      (env.probe st.probeCnt url = some r → vget vm k < r →
        env.downloadOk st.dlCnt url = true →
        lastSegment url ∈ (process_patch env (vm, st) (k, url)).2.staged) := by
  constructor
  · simp [download_and_extract_initial_package, removeFile, List.mem_filter]
  · intro h1 h2 h3
    simp only [process_patch, get_remote_timestamp_st, h1, h3, gt_iff_lt, h2,
      if_true]
    split
    · exact mem_addFile _ _
    · exact mem_addFile _ _

/-- C5 witness: for the concrete successful install of scenario 1 starting
from an empty map, the staged archive `a.7z` remains, and the initial
package installer removes its own staging file. -/
theorem C5_staging_cleanup_witness :
    "a.7z" ∈
        (process_patch scenario1Env ([], st0) ("a", "http://x/a.7z")).2.staged ∧
      "a.7z" ∉
        (download_and_extract_initial_package true true false true []
          "a.7z").2 := by
  have h := C5_staging_cleanup_initial_package_only true false true []
    "a.7z" scenario1Env [] st0 "a" "http://x/a.7z" 1000
  exact ⟨h.2 rfl (by decide) rfl, h.1⟩

/-- C6: manifest fallback and headless exit status.  If the live fetch
fails and a cached manifest exists, the cycle runs the ordinary cycle body
on the cached manifest and completes; if neither is available, the cycle
ends in the fatal state with the file-system state untouched; the headless
entry point exits 0 exactly on completed cycles (per-key outcomes are
irrelevant to completion), and non-zero exactly when no manifest was
obtainable. -/
theorem C6_fallback_and_exit_status (env : Env) (st : St) :
    (env.fetch = none → ∀ c, st.cached = some c →
        check_and_update_files env st = (sync_cycle_body env c st, true)) ∧
      (env.fetch = none → st.cached = none →
        check_and_update_files env st = (st, false)) ∧
      (main_exit env st = 0 ↔ (check_and_update_files env st).2 = true) ∧
      ((check_and_update_files env st).2 = false ↔
        (env.fetch = none ∧ st.cached = none)) := by
  refine ⟨?_, ?_, ?_, ?_⟩
  · intro hf c hc
    simp [check_and_update_files, download_patches_st, hf, hc]
  · intro hf hc
    simp [check_and_update_files, download_patches_st, hf, hc]
  · unfold main_exit
    split
    · next h => simp [h]
    · next h => simpa using h
  · rcases hf : env.fetch with _ | p
    · rcases hc : st.cached with _ | c <;>
        simp [check_and_update_files, download_patches_st, hf, hc]
    · simp [check_and_update_files, download_patches_st, hf]

/-- C6 witness: with the live fetch failing and a cached manifest for key
`c` present, the cycle runs the cycle body on the cached manifest and
completes. -/
theorem C6_fallback_witness :
    check_and_update_files noFetchEnv cachedSt =
      (sync_cycle_body noFetchEnv [("c", "http://x/c.7z")] cachedSt, true) :=
  (C6_fallback_and_exit_status noFetchEnv cachedSt).1 rfl _ rfl

/-- C7 counterexample: `download_patches` accepts a payload whose value is
not a string URL.  The object `a -> 5` is accepted, returned, and persisted
as the cached manifest, although `5` is not a string: the code only checks
for a non-empty dict, not for string values. -/
theorem C7_counterexample_nonstring_value_accepted :
    (download_patches_model (some (J.obj [("a", J.num 5)])) none).1 =
        some [("a", J.num 5)] ∧
      (download_patches_model (some (J.obj [("a", J.num 5)])) none).2 =
        some [("a", J.num 5)] ∧
      (J.num 5).isStr = false := by
  refine ⟨rfl, rfl, rfl⟩

/-- C7 amended: the fetch accepts a payload exactly when it is a non-empty
JSON object, with no validation of the values; any network error, timeout,
non-2xx status, JSON decode error, non-object payload or empty object
yields the unavailable result, and on every unavailable result the
previously cached manifest is left untouched; on every accepted payload the
cache is overwritten with it. -/
theorem C7_fetch_validation (payload : Option J)
    (cached : Option (List (String × J))) :
    (payload = none → download_patches_model payload cached = (none, cached)) ∧
      (∀ kvs, (download_patches_model payload cached).1 = some kvs →
        payload = some (J.obj kvs) ∧ kvs ≠ [] ∧
        (download_patches_model payload cached).2 = some kvs) ∧
      ((download_patches_model payload cached).1 = none →
        (download_patches_model payload cached).2 = cached) ∧
      (∀ kvs, payload = some (J.obj kvs) → kvs ≠ [] →
        download_patches_model payload cached = (some kvs, some kvs)) := by
  rcases payload with _ | j
  · refine ⟨fun _ => rfl, ?_, fun _ => rfl, ?_⟩
    · intro kvs h
      simp [download_patches_model] at h
    · intro kvs h
      exact Option.noConfusion h
  · refine ⟨fun h => Option.noConfusion h, ?_, ?_, ?_⟩
    · intro kvs h
      cases j with
      | obj kvs2 =>
        by_cases he : kvs2.isEmpty
        · simp [download_patches_model, he] at h
        · simp [download_patches_model, he] at h
          subst h
          exact ⟨rfl, fun hnil => he (by simp [hnil]),
            by simp [download_patches_model, he]⟩
      | null => simp [download_patches_model] at h
      | jbool b => simp [download_patches_model] at h
      | num n => simp [download_patches_model] at h
      | str s => simp [download_patches_model] at h
      | arr xs => simp [download_patches_model] at h
    · intro h
      cases j with
      | obj kvs2 =>
        by_cases he : kvs2.isEmpty
        · simp [download_patches_model, he]
        · simp [download_patches_model, he] at h
      | null => rfl
      | jbool b => rfl
      | num n => rfl
      | str s => rfl
      | arr xs => rfl
    · intro kvs h hne
      injection h with h2
      subst h2
      simp [download_patches_model, List.isEmpty_iff, hne]

/-- C7 witness: a failed fetch with no prior cache returns unavailable and
leaves the cache absent. -/
theorem C7_fetch_validation_witness :
    download_patches_model none none = (none, none) :=
  (C7_fetch_validation none none).1 rfl

/-- C8: `load_version_map` never lets a failure escape.  A missing backing
file, an unreadable one, and any content that fails to parse as JSON — the
empty file included — all yield the empty map; the embedding is a total
function, reflecting that every exception is caught inside the loader. -/
theorem C8_load_version_map_resilient (s : String) :
    load_version_map_file VFileState.missing = J.obj [] ∧
      load_version_map_file (VFileState.unreadable s) = J.obj [] ∧
      (json_loads s = none →
        load_version_map_file (VFileState.readable s) = J.obj []) ∧
      load_version_map_file (VFileState.readable "") = J.obj [] := by
  refine ⟨rfl, rfl, fun h => ?_, rfl⟩
  simp [load_version_map_file, h]

/-- C8 witness: a file holding the unparseable content consisting of a
single opening brace loads as the empty map. -/
theorem C8_load_version_map_witness :
    load_version_map_file (VFileState.readable "\x7b") = J.obj [] :=
  (C8_load_version_map_resilient "\x7b").2.2.1 rfl

/-- C9: per-key failure isolation in the download loop.  A failed download
leaves the in-memory map unchanged; a failed extraction leaves both the
in-memory map and the persisted file unchanged; the loop over the remaining
manifest keys continues from the failed key's successor state rather than
aborting; and a stale key whose download and extraction succeed is
committed to the map and persisted, independent of what happened at earlier
keys. -/
theorem C9_per_key_failure_isolation (env : Env) (vm : VMap) (st : St)
    (k url : String) (rest : Patches) (r : Nat) :
    (env.probe st.probeCnt url = some r → vget vm k < r →
        env.downloadOk st.dlCnt url = false →
        (process_patch env (vm, st) (k, url)).1 = vm) ∧
      (env.probe st.probeCnt url = some r → vget vm k < r →
        env.downloadOk st.dlCnt url = true → env.extractOk st.exCnt = false →
        (process_patch env (vm, st) (k, url)).1 = vm ∧
          (process_patch env (vm, st) (k, url)).2.vfile = st.vfile) ∧
      List.foldl (process_patch env) (vm, st) ((k, url) :: rest) =
        List.foldl (process_patch env) (process_patch env (vm, st) (k, url))
          rest ∧
      (env.probe st.probeCnt url = some r → vget vm k < r →
        env.downloadOk st.dlCnt url = true → env.extractOk st.exCnt = true →
        (process_patch env (vm, st) (k, url)).1 = vset vm k r ∧
          (process_patch env (vm, st) (k, url)).2.vfile =
            some (vset vm k r)) := by
  refine ⟨?_, ?_, rfl, ?_⟩
  · intro h1 h2 h3
    simp [process_patch, get_remote_timestamp_st, h1, h2, h3]
  · intro h1 h2 h3 h4
    refine ⟨?_, ?_⟩ <;>
      simp [process_patch, get_remote_timestamp_st, save_version_map_st,
        h1, h2, h3, h4]
  · intro h1 h2 h3 h4
    refine ⟨?_, ?_⟩ <;>
      simp [process_patch, get_remote_timestamp_st, save_version_map_st,
        h1, h2, h3, h4]

/-- C9 witness: with every download failing, the install step for key `a`
leaves the empty in-memory map unchanged. -/
theorem C9_per_key_failure_isolation_witness :
    (process_patch failDownloadEnv ([], st0) ("a", "http://x/a.7z")).1 =
      [] :=
  (C9_per_key_failure_isolation failDownloadEnv [] st0 "a" "http://x/a.7z"
    [] 1000).1 rfl (by decide) rfl

/-- On a JSON object the fill loop of `load_config` never raises and acts
as the pure list function `fillList`. -/
theorem fillDefaults_obj (ds : List (String × J)) (kvs : List (String × J)) :
    fillDefaults ds (J.obj kvs) = some (J.obj (fillList ds kvs)) := by
  induction ds generalizing kvs with
  | nil => rfl
  | cons d ds ih =>
    obtain ⟨k, dv⟩ := d
    by_cases h : kvs.any (fun p => p.1 == k)
    · simp [fillDefaults, fillList, keyNotIn, setKeyJ, h, ih]
    · simp [fillDefaults, fillList, keyNotIn, setKeyJ, h, ih]

/-- The fill loop only appends entries, so any key test it satisfies
beforehand it still satisfies afterwards. -/
theorem fillList_any_mono (ds : List (String × J))
    (kvs : List (String × J)) (p : String × J → Bool)
    (h : kvs.any p = true) : (fillList ds kvs).any p = true := by
  induction ds generalizing kvs with
  | nil => exact h
  | cons d ds ih =>
    obtain ⟨k, dv⟩ := d
    by_cases hk : kvs.any (fun q => q.1 == k)
    · simpa [fillList, hk] using ih kvs h
    · refine Eq.trans (by simp [fillList, hk]) (ih (kvs ++ [(k, dv)]) ?_)
      simp [List.any_append, h]

/-- After the fill loop, every default key is present. -/
theorem fillList_all_keys (ds : List (String × J)) (kvs : List (String × J)) :
    ∀ kd ∈ ds, (fillList ds kvs).any (fun q => q.1 == kd.1) = true := by
  induction ds generalizing kvs with
  | nil => intro kd hkd; cases hkd
  | cons d ds ih =>
    obtain ⟨k, dv⟩ := d
    intro kd hkd
    rcases List.mem_cons.mp hkd with h | h
    · subst h
      by_cases hk : kvs.any (fun q => q.1 == k)
      · simpa [fillList, hk] using
          fillList_any_mono ds kvs (fun q => q.1 == k) hk
      · have h2 := fillList_any_mono ds (kvs ++ [(k, dv)])
          (fun q => q.1 == k) (by simp [List.any_append])
        simpa [fillList, hk] using h2
    · by_cases hk : kvs.any (fun q => q.1 == k)
      · simpa [fillList, hk] using ih kvs kd h
      · simpa [fillList, hk] using ih (kvs ++ [(k, dv)]) kd h

/-- A successful search in the left part of an appended list is the search
in the whole list. -/
theorem find_append_left {α : Type} (l1 l2 : List α) (p : α → Bool)
    (h : (l1.find? p).isSome) : (l1 ++ l2).find? p = l1.find? p := by
  induction l1 with
  | nil => simp at h
  | cons a l1 ih =>
    by_cases hp : p a
    · rw [List.cons_append, List.find?_cons_of_pos _ hp,
        List.find?_cons_of_pos _ hp]
    · rw [List.cons_append, List.find?_cons_of_neg _ hp,
        List.find?_cons_of_neg _ hp]
      rw [List.find?_cons_of_neg _ hp] at h
      exact ih h

/-- The fill loop preserves the binding of every key already present. -/
theorem fillList_find_preserved (ds : List (String × J))
    (kvs : List (String × J)) (k' : String)
    (h : kvs.any (fun p => p.1 == k') = true) :
    (fillList ds kvs).find? (fun p => p.1 == k') =
      kvs.find? (fun p => p.1 == k') := by
  induction ds generalizing kvs with
  | nil => rfl
  | cons d ds ih =>
    obtain ⟨k, dv⟩ := d
    by_cases hk : kvs.any (fun q => q.1 == k)
    · simpa [fillList, hk] using ih kvs h
    · have hsome : (kvs.find? (fun p => p.1 == k')).isSome := by
        rw [List.find?_isSome, ← List.any_eq_true]
        exact h
      have h2 : (kvs ++ [(k, dv)]).any (fun p => p.1 == k') = true := by
        simp [List.any_append, h]
      have h3 := ih (kvs ++ [(k, dv)]) h2
      simp only [fillList, hk, Bool.false_eq_true, if_false]
      rw [h3, find_append_left kvs [(k, dv)] _ hsome]

/-- C10 counterexample: `load_config` does not always return a mapping.
A valid `config.json` holding the JSON array of exactly the seven default
key strings passes every `key not in config` membership test, so the file
content is returned as-is — a JSON array, not a mapping with the default
keys. -/
theorem C10_counterexample_array_config :
    (load_config_model (VFileState.readable arrConfigText)).isObj = false ∧
      load_config_model (VFileState.readable arrConfigText) =
        J.arr [J.str "patches_url", J.str "data_dir", J.str "unpack_dir",
          J.str "version_map_file", J.str "required_file",
          J.str "initial_package_url",
          J.str "initial_package_extract_path"] := by
  exact ⟨rfl, rfl⟩

/-- C10 amended: `load_config` never raises; a missing configuration file,
an unreadable one, or one with invalid JSON yields the full default
configuration; a valid file holding a JSON object is returned with each
absent default key appended with its default value, every default key
present afterwards and every key present in the file kept with its original
value.  (A valid non-object payload is not always converted to such a
mapping.) -/
theorem C10_load_config_fills_defaults (s : String)
    (kvs : List (String × J)) :
    load_config_model VFileState.missing = J.obj DEFAULT_CONFIG ∧
      load_config_model (VFileState.unreadable s) = J.obj DEFAULT_CONFIG ∧
      (json_loads s = none →
        load_config_model (VFileState.readable s) = J.obj DEFAULT_CONFIG) ∧
      (json_loads s = some (J.obj kvs) →
        load_config_model (VFileState.readable s) =
          J.obj (fillList DEFAULT_CONFIG kvs)) ∧
      (∀ kd ∈ DEFAULT_CONFIG,
        (fillList DEFAULT_CONFIG kvs).any (fun q => q.1 == kd.1) = true) ∧
      (∀ k', kvs.any (fun p => p.1 == k') = true →
        (fillList DEFAULT_CONFIG kvs).find? (fun p => p.1 == k') =
          kvs.find? (fun p => p.1 == k')) := by
  refine ⟨rfl, rfl, ?_, ?_, fillList_all_keys DEFAULT_CONFIG kvs,
    fillList_find_preserved DEFAULT_CONFIG kvs⟩
  · intro h
    simp [load_config_model, h]
  · intro h
    simp [load_config_model, h, fillDefaults_obj]

/-- C10 witness: a configuration file holding the empty JSON object loads
as the defaults filled into the empty object. -/
theorem C10_load_config_witness :
    load_config_model (VFileState.readable "\x7b\x7d") =
      J.obj (fillList DEFAULT_CONFIG []) :=
  (C10_load_config_fills_defaults "\x7b\x7d" []).2.2.2.1 rfl

end ElaUpdater
